import Mathlib

set_option linter.unusedVariables false

/-!
Verification development for the AI-Tradebot order-execution pipeline.

Each Python module of the execution core is shallowly embedded as Lean
definitions.  I/O boundaries (HTTP calls issued through the Saxo client)
are modelled as oracle functions passed explicitly: the value an oracle
returns is the parsed JSON body the remote call would have produced, and
an `Option`/sum encoding captures the exception behaviour of the call.
Structures keep the field names of the Python dataclasses; fields holding
wall-clock timestamps (`retrieved_at`, `timestamp`) are omitted because no
control path of the embedded functions reads them.  Python `Decimal`
values are modelled as `ℚ`.
-/

namespace Models

/-- Embeds `execution.precheck.ErrorInfo` (a dataclass with two string fields). -/
structure ErrorInfo where
  error_code : String
  message : String
deriving DecidableEq, Repr

/-- Embeds `execution.precheck.PreTradeDisclaimers`: opaque context string plus
the list of disclaimer token strings returned by the precheck response. -/
structure PreTradeDisclaimers where
  disclaimer_context : String
  disclaimer_tokens : List String
deriving DecidableEq, Repr

/-- Embeds `execution.precheck.EstimatedCost`. -/
structure EstimatedCost where
  amount : ℚ
  currency : String
deriving DecidableEq, Repr

/-- Embeds `execution.precheck.MarginImpactBuySell`. -/
structure MarginImpactBuySell where
  amount : ℚ
  currency : String
deriving DecidableEq, Repr

/-- Embeds `execution.precheck.PrecheckOutcome`.  Note the success flag is
named `ok`; the dataclass has no attribute named `success` (the distinct
legacy dataclass `execution.models.PrecheckResult` has `success`, but the
precheck client returns this type).  `raw_response` is omitted (debug only,
never read). -/
structure PrecheckOutcome where
  ok : Bool
  error_info : Option ErrorInfo := none
  estimated_cost : Option EstimatedCost := none
  margin_impact_buy_sell : Option MarginImpactBuySell := none
  pre_trade_disclaimers : Option PreTradeDisclaimers := none
  http_status : Int := 200
  request_id : Option String := none
deriving DecidableEq, Repr

/-- Embeds Python string truthiness for an optional string value:
`None` and the empty string are falsy, any other string is truthy. -/
def pyTruthyStr : Option String → Bool
  | none => false
  | some s => s ≠ ""

end Models

namespace Disclaimers

open Models

/-- Embeds `execution.disclaimers.DisclaimerPolicy`. -/
inductive DisclaimerPolicy where
  | block_all
  | auto_accept_normal
  | manual_review
deriving DecidableEq, Repr

/-- Embeds `execution.disclaimers.DisclaimerToken`. -/
structure DisclaimerToken where
  token : String
deriving DecidableEq, Repr

/-- Embeds one entry of the `ResponseOptions` list of a disclaimer record.
The source keeps these as loosely typed dicts; the only key the surrounding
code and tests mention is `Value`, so an entry is modelled by that value. -/
structure ResponseOption where
  value : String
deriving DecidableEq, Repr

/-- Embeds `execution.disclaimers.DisclaimerDetails`.  The dataclass has
exactly these content fields plus a `retrieved_at` timestamp (omitted,
never read by any branch).  Note the dataclass has no field for
"conditions requiring user input". -/
structure DisclaimerDetails where
  disclaimer_token : String
  is_blocking : Bool
  title : String
  body : String
  response_options : List ResponseOption
deriving DecidableEq, Repr

/-- Embeds `execution.disclaimers.DisclaimerResolutionOutcome`. -/
structure DisclaimerResolutionOutcome where
  allow_trading : Bool
  blocking_disclaimers : List DisclaimerToken
  normal_disclaimers : List DisclaimerToken
  auto_accepted : List String
  errors : List String
  policy_applied : DisclaimerPolicy
deriving DecidableEq, Repr

/-- Embeds `DisclaimerService._fetch_disclaimer_details_batch`.  The network
fetch `_get_disclaimer_details` is the oracle `fetch`: `some d` is a
successful retrieval, `none` an exception, in which case the source appends
a conservative fallback record with `is_blocking=True` and empty response
options for that token. -/
def fetch_disclaimer_details_batch (fetch : String → Option DisclaimerDetails)
    (tokens : List String) : List DisclaimerDetails :=
  tokens.map fun token =>
    match fetch token with
    | some details => details
    | none =>
        { disclaimer_token := token
          is_blocking := true
          title := "Unknown Disclaimer"
          body := "Failed to retrieve details"
          response_options := [] }

/-- Embeds `DisclaimerService._auto_accept_disclaimers`.  The acceptance
POST to `/dm/v2/disclaimers` is the oracle `accept` (`true` = call
succeeded, `false` = call raised).  Returns `(accepted, errors, calls)`
where `calls` records the token of every acceptance POST actually issued,
in order.  A blocking record hits the defensive check: no call is issued
and an error is appended.  For every non-blocking record the POST is
issued unconditionally (the source inspects neither `response_options` nor
any user-input conditions before posting). -/
def auto_accept_disclaimers (accept : String → Bool)
    (details : List DisclaimerDetails) :
    List String × List String × List String :=
  details.foldl
    (fun acc d =>
      let accepted := acc.1
      let errors := acc.2.1
      let calls := acc.2.2
      if d.is_blocking then
        (accepted,
         errors ++ ["Attempted to auto-accept BLOCKING disclaimer " ++
                    d.disclaimer_token ++ " - BLOCKED"],
         calls)
      else
        let calls := calls ++ [d.disclaimer_token]
        if accept d.disclaimer_token then
          (accepted ++ [d.disclaimer_token], errors, calls)
        else
          (accepted,
           errors ++ ["Error accepting disclaimer " ++ d.disclaimer_token],
           calls))
    ([], [], [])

/-- Outcome with no disclaimers present: trading allowed. -/
def no_disclaimer_outcome (policy : DisclaimerPolicy) : DisclaimerResolutionOutcome :=
  { allow_trading := true
    blocking_disclaimers := []
    normal_disclaimers := []
    auto_accepted := []
    errors := []
    policy_applied := policy }

/-- Embeds `DisclaimerService.evaluate_disclaimers`.  Inputs: the configured
policy, the optional disclaimer bundle of the precheck outcome, the detail
fetch oracle and the acceptance POST oracle.  Returns the resolution
outcome paired with the list of acceptance POST calls that were issued. -/
def evaluate_disclaimers (policy : DisclaimerPolicy)
    (pre_trade_disclaimers : Option PreTradeDisclaimers)
    (fetch : String → Option DisclaimerDetails)
    (accept : String → Bool) :
    DisclaimerResolutionOutcome × List String :=
  match pre_trade_disclaimers with
  | none => (no_disclaimer_outcome policy, [])
  | some ds =>
    if ds.disclaimer_tokens = [] then
      (no_disclaimer_outcome policy, [])
    else
      let details := fetch_disclaimer_details_batch fetch ds.disclaimer_tokens
      let blocking := details.filter fun d => d.is_blocking
      let normal := details.filter fun d => !d.is_blocking
      if blocking ≠ [] then
        ({ allow_trading := false
           blocking_disclaimers := blocking.map fun d => ⟨d.disclaimer_token⟩
           normal_disclaimers := normal.map fun d => ⟨d.disclaimer_token⟩
           auto_accepted := []
           errors := []
           policy_applied := policy }, [])
      else
        match policy with
        | .block_all =>
            ({ allow_trading := false
               blocking_disclaimers := []
               normal_disclaimers := normal.map fun d => ⟨d.disclaimer_token⟩
               auto_accepted := []
               errors := []
               policy_applied := policy }, [])
        | .auto_accept_normal =>
            let res := auto_accept_disclaimers accept normal
            let auto_accepted := res.1
            let errors := res.2.1
            let calls := res.2.2
            if errors ≠ [] then
              ({ allow_trading := false
                 blocking_disclaimers := []
                 normal_disclaimers := normal.map fun d => ⟨d.disclaimer_token⟩
                 auto_accepted := auto_accepted
                 errors := errors
                 policy_applied := policy }, calls)
            else
              ({ allow_trading := true
                 blocking_disclaimers := []
                 normal_disclaimers := normal.map fun d => ⟨d.disclaimer_token⟩
                 auto_accepted := auto_accepted
                 errors := []
                 policy_applied := policy }, calls)
        | .manual_review =>
            ({ allow_trading := false
               blocking_disclaimers := []
               normal_disclaimers := normal.map fun d => ⟨d.disclaimer_token⟩
               auto_accepted := []
               errors := []
               policy_applied := policy }, [])

end Disclaimers

namespace Placement

open Models

/-- Embeds `execution.placement.PlacementStatus`. -/
inductive PlacementStatus where
  | success
  | failure
  | uncertain
  | timeout
deriving DecidableEq, Repr

/-- Embeds `execution.placement.ReconciliationStatus`. -/
inductive ReconciliationStatus where
  | found_working
  | found_filled
  | found_cancelled
  | not_found
  | query_failed
  | not_attempted
deriving DecidableEq, Repr

/-- Embeds `execution.placement.PlacementOutcome` (the `raw_response` debug
field is omitted, it is never read). -/
structure PlacementOutcome where
  status : PlacementStatus
  order_id : Option String := none
  error_info : Option ErrorInfo := none
  http_status : Option Int := none
  request_id : Option String := none
  requires_reconciliation : Bool := false
deriving DecidableEq, Repr

/-- Embeds `execution.placement.ReconciliationOutcome`. -/
structure ReconciliationOutcome where
  status : ReconciliationStatus
  order_id : Option String := none
  order_status : Option String := none
  fill_price : Option ℚ := none
  filled_amount : Option ℚ := none
  error_message : Option String := none
deriving DecidableEq, Repr

/-- Embeds `execution.placement.ExecutionOutcome` (the `timestamp` wall-clock
field is omitted, it is never read by any branch). -/
structure ExecutionOutcome where
  placement : PlacementOutcome
  reconciliation : Option ReconciliationOutcome := none
  final_status : String := "uncertain"
  order_id : Option String := none
  external_reference : String := ""
deriving DecidableEq, Repr

/-- Embeds `execution.placement.PlacementConfig`. -/
structure PlacementConfig where
  dry_run : Bool := false
deriving DecidableEq, Repr

/-- Embeds the `ErrorInfo` block of a placement response body: the keys
`ErrorCode` and `Message`, each possibly absent. -/
structure ResponseErrorInfo where
  errorCode : Option String := none
  message : Option String := none
deriving DecidableEq, Repr

/-- Embeds one element of the `Orders` array of a placement response body:
only its `OrderId` key is ever read. -/
structure ResponseOrder where
  orderId : Option String := none
deriving DecidableEq, Repr

/-- Embeds the JSON body of a placement response as read by
`_parse_placement_response_data`: the keys `ErrorInfo`, `OrderId` and
`Orders` (each possibly absent). -/
structure PlacementResponse where
  errorInfo : Option ResponseErrorInfo := none
  orderId : Option String := none
  orders : Option (List ResponseOrder) := none
deriving DecidableEq, Repr

/-- Embeds `OrderPlacementClient._parse_placement_response_data`.  Python
truthiness of the extracted order id (`if not order_id`) is embedded by
`pyTruthyStr`, so an absent key and an empty string both count as missing. -/
def parse_placement_response_data (data : PlacementResponse) (http_status : Int)
    (request_id : String) : PlacementOutcome :=
  match data.errorInfo with
  | some ei =>
      let error_code := ei.errorCode.getD "UNKNOWN"
      let message := ei.message.getD "No message"
      if error_code = "TradeNotCompleted" then
        { status := .uncertain
          order_id := data.orderId
          error_info := some ⟨error_code, message⟩
          http_status := some http_status
          request_id := some request_id
          requires_reconciliation := true }
      else
        { status := .failure
          error_info := some ⟨error_code, message⟩
          http_status := some http_status
          request_id := some request_id }
  | none =>
      let order_id :=
        if !pyTruthyStr data.orderId then
          match data.orders with
          | some (o :: _) => o.orderId
          | _ => data.orderId
        else data.orderId
      if !pyTruthyStr order_id then
        { status := .uncertain
          http_status := some http_status
          request_id := some request_id
          requires_reconciliation := true }
      else
        { status := .success
          order_id := order_id
          http_status := some http_status
          request_id := some request_id }

/-- Embeds `OrderPlacementClient._determine_final_status`.  The source
receives the full `PlacementOutcome` and optional `ReconciliationOutcome`
objects but reads only their `status` fields, so the embedding takes the two
statuses directly. -/
def determine_final_status (placement : PlacementStatus)
    (reconciliation : Option ReconciliationStatus) : String :=
  if placement = .success then "success"
  else if placement = .failure then "failure"
  else
    match reconciliation with
    | some r =>
        if r = .found_working ∨ r = .found_filled then "success"
        else if r = .found_cancelled then "failure"
        else if r = .not_found then "failure"
        else "uncertain"
    | none => "uncertain"

/-- Result of the placement POST to `/trade/v2/orders` as observed by
`_place_order_sync`: a parsed JSON body, or one of the exception shapes the
handler distinguishes.  `raiseTimeout` is a `requests.exceptions.Timeout`
instance; `raiseConnectionError` is any non-`Timeout` exception without a
`status_code` attribute (for example `requests.exceptions.ConnectionError`,
for which `getattr(e, "status_code", 500)` yields 500); `raiseApiError` is a
`SaxoAPIError` carrying its optional `status_code` attribute. -/
inductive PostResult where
  | ok (data : PlacementResponse)
  | raiseTimeout
  | raiseConnectionError (message : String)
  | raiseApiError (status_code : Option Int) (message : String)
deriving DecidableEq, Repr

/-- Network calls the placement client can issue: the placement POST and the
reconciliation GET against the portfolio orders endpoint. -/
inductive NetworkCall where
  | postOrder
  | getOrders
deriving DecidableEq, Repr

/-- Embeds `OrderPlacementClient._place_order_sync`.  Oracles: `post` is the
outcome of the placement POST; `reconcile` is the outcome of
`_reconcile_order` given the order id known to placement (that method only
issues GET queries and catches its own exceptions, so it is modelled at its
return-value boundary).  The second component records every network call
issued, in order. -/
def place_order_sync (config : PlacementConfig) (external_reference : String)
    (precheck_outcome : PrecheckOutcome) (request_id : String)
    (post : PostResult)
    (reconcile : Option String → ReconciliationOutcome) :
    ExecutionOutcome × List NetworkCall :=
  if config.dry_run then
    ({ placement := { status := .success, order_id := none }
       final_status := "success"
       external_reference := external_reference }, [])
  else if !precheck_outcome.ok then
    ({ placement := { status := .failure, error_info := precheck_outcome.error_info }
       final_status := "failure"
       external_reference := external_reference }, [])
  else
    let placement_outcome :=
      match post with
      | .ok data => parse_placement_response_data data 200 request_id
      | .raiseTimeout =>
          { status := .timeout
            request_id := some request_id
            requires_reconciliation := true }
      | .raiseConnectionError message =>
          { status := .failure
            error_info := some ⟨"EXCEPTION", message⟩
            http_status := some 500
            request_id := some request_id }
      | .raiseApiError status_code message =>
          { status := .failure
            error_info := some ⟨"EXCEPTION", message⟩
            http_status := status_code
            request_id := some request_id }
    let reconciliation :=
      if placement_outcome.requires_reconciliation then
        some (reconcile placement_outcome.order_id)
      else none
    let recon_calls : List NetworkCall :=
      if placement_outcome.requires_reconciliation then [.getOrders] else []
    ({ placement := placement_outcome
       reconciliation := reconciliation
       final_status := determine_final_status placement_outcome.status
         (reconciliation.map fun r => r.status)
       order_id :=
         if pyTruthyStr placement_outcome.order_id then placement_outcome.order_id
         else
           match reconciliation with
           | some r => r.order_id
           | none => none
       external_reference := external_reference },
     NetworkCall.postOrder :: recon_calls)

end Placement

namespace Validation

/-- Embeds the Python float modulo `a % b` for a positive divisor, which
returns `a - b * floor(a / b)`.  Arithmetic is exact over `ℚ`; the IEEE
float computation of the source agrees with it on every input used in the
theorems below (all involved values and intermediate results are exactly
representable or compared strictly away from rounding error). -/
def pymod (a b : ℚ) : ℚ := a - b * ⌊a / b⌋

/-- The literal tolerance `1e-10` of the alignment comparison. -/
def eps : ℚ := 1 / 10 ^ 10

/-- Embeds the increment-size branch of
`InstrumentConstraints.validate_amount` (validation.py lines 92-97):
`remainder = amount % increment`; the amount is rejected when
`remainder > 1e-10 and abs(remainder - increment) > 1e-10`.  Returns `true`
when the branch does not reject. -/
def increment_check (amount increment : ℚ) : Bool :=
  let remainder := pymod amount increment
  if remainder > eps ∧ |remainder - increment| > eps then false else true

end Validation

namespace PositionGuards

open Models

/-- Embeds `execution.position.Position`. -/
structure Position where
  asset_type : String
  uic : Int
  account_key : String
  position_id : String
  net_quantity : ℚ
  average_price : ℚ
  market_value : ℚ
  unrealized_pnl : ℚ
  currency : String
  symbol : Option String := none
  market_state : Option String := none
  can_be_closed : Bool := true
deriving DecidableEq, Repr

/-- Embeds `execution.position.PositionGuardResult`. -/
structure PositionGuardResult where
  allowed : Bool
  reason : String
  position_quantity : Option ℚ := none
  recommended_action : Option String := none
deriving DecidableEq, Repr

/-- Embeds `execution.position.ExecutionConfig`. -/
structure ExecutionConfig where
  duplicate_buy_policy : String := "block"
  allow_short_covering : Bool := false
  position_cache_ttl_seconds : Int := 30
  position_query_retries : Int := 2
  position_query_timeout_seconds : Int := 10
  block_on_position_failure : Bool := true
deriving DecidableEq, Repr

/-- Embeds `PositionAwareGuards.evaluate_buy_intent`.  The position map
returned by `PositionManager.get_positions` is the lookup function
`positions`, and `last_query_failed` is the manager flag of the same name. -/
def evaluate_buy_intent (config : ExecutionConfig)
    (positions : String × Int → Option Position) (last_query_failed : Bool)
    (asset_type : String) (uic : Int) (intended_quantity : ℚ) :
    PositionGuardResult :=
  if last_query_failed ∧ config.block_on_position_failure ∧
      positions (asset_type, uic) = none then
    { allowed := false
      reason := "position_data_unavailable" }
  else
    match positions (asset_type, uic) with
    | none =>
        { allowed := true
          reason := "no_existing_position"
          position_quantity := some 0 }
    | some position =>
        if position.net_quantity > 0 then
          if config.duplicate_buy_policy = "block" then
            { allowed := false
              reason := "duplicate_buy_prevented"
              position_quantity := some position.net_quantity
              recommended_action := some "skip_or_increase_existing" }
          else
            { allowed := true
              reason := "duplicate_buy_warned"
              position_quantity := some position.net_quantity }
        else if position.net_quantity < 0 then
          if config.allow_short_covering then
            { allowed := true
              reason := "reducing_short_position"
              position_quantity := some position.net_quantity }
          else
            { allowed := false
              reason := "short_covering_not_configured"
              position_quantity := some position.net_quantity }
        else
          { allowed := true
            reason := "zero_position"
            position_quantity := some 0 }

/-- Embeds Python truthiness for the optional `Decimal` sell quantity:
`None` and zero are falsy. -/
def pyTruthyOptRat : Option ℚ → Bool
  | none => false
  | some q => q ≠ 0

/-- Embeds `PositionAwareGuards.evaluate_sell_intent`. -/
def evaluate_sell_intent (positions : String × Int → Option Position)
    (asset_type : String) (uic : Int) (intended_quantity : Option ℚ) :
    PositionGuardResult :=
  match positions (asset_type, uic) with
  | none =>
      { allowed := false
        reason := "no_position_to_sell"
        position_quantity := some 0 }
  | some position =>
      if position.net_quantity < 0 then
        { allowed := false
          reason := "position_is_short"
          position_quantity := some position.net_quantity }
      else if position.net_quantity = 0 then
        { allowed := false
          reason := "zero_position"
          position_quantity := some 0 }
      else if !position.can_be_closed then
        { allowed := false
          reason := "position_locked_by_broker"
          position_quantity := some position.net_quantity }
      else
        let chosen :=
          if pyTruthyOptRat intended_quantity then intended_quantity.getD 0
          else position.net_quantity
        let sell_quantity :=
          if chosen > position.net_quantity then position.net_quantity else chosen
        { allowed := true
          reason := "position_exists"
          position_quantity := some sell_quantity
          recommended_action := some ("sell_" ++ toString sell_quantity) }

end PositionGuards

namespace Transport

/-- Outcome of one physical GET attempt inside
`SaxoClient.get_with_headers`: an HTTP response with its status code, a
`requests.exceptions.Timeout`, or a `requests.exceptions.ConnectionError`. -/
inductive NetResult where
  | response (status : Nat)
  | timeoutErr
  | connectionErr
deriving DecidableEq, Repr

/-- How `get_with_headers` terminates: a returned JSON body, or one of the
exception classes it raises (`SaxoRateLimitError`, `SaxoAuthenticationError`,
`SaxoAPIError`). -/
inductive ClientResult where
  | ok
  | rateLimitErr
  | authErr
  | apiErr
deriving DecidableEq, Repr

/-- Embeds the module constant `NON_RETRYABLE_STATUS_CODES`. -/
def NON_RETRYABLE_STATUS_CODES : List Nat := [400, 401, 403]

/-- Embeds the module constant `RETRYABLE_STATUS_CODES`. -/
def RETRYABLE_STATUS_CODES : List Nat := [429, 500, 502, 503, 504]

/-- Embeds the module constant `MAX_RETRIES`. -/
def MAX_RETRIES : Nat := 3

/-- Embeds `SaxoClient._handle_http_error_response`: raises
`SaxoAuthenticationError` for 401/403 and `SaxoAPIError` otherwise. -/
def handle_http_error_response (status : Nat) : ClientResult :=
  if status = 401 ∨ status = 403 then .authErr else .apiErr

/-- Embeds the retry loop of `SaxoClient.get_with_headers` from loop index
`attempt` on, given the per-attempt network oracle `net`.  Returns the
terminal result together with the total number of physical requests issued
(one per loop iteration entered).  Branches follow the source order:
status < 400 returns the body; 429 retries or, on the last attempt, raises
the rate-limit error; 400/401/403 raise immediately through the error
handler; the retryable 5xx set retries or, on the last attempt, falls
through to the error handler; any other status raises through the error
handler; a timeout or connection error retries or, once attempts are
exhausted, raises `SaxoAPIError`. -/
def get_attempts_from (net : Nat → NetResult) (max_retries attempt : Nat) :
    ClientResult × Nat :=
  match net attempt with
  | .response s =>
      if s < 400 then (.ok, attempt + 1)
      else if s = 429 then
        if h : attempt < max_retries then get_attempts_from net max_retries (attempt + 1)
        else (.rateLimitErr, attempt + 1)
      else if s ∈ NON_RETRYABLE_STATUS_CODES then (handle_http_error_response s, attempt + 1)
      else if s ∈ RETRYABLE_STATUS_CODES then
        if h : attempt < max_retries then get_attempts_from net max_retries (attempt + 1)
        else (handle_http_error_response s, attempt + 1)
      else (handle_http_error_response s, attempt + 1)
  | .timeoutErr =>
      if h : attempt < max_retries then get_attempts_from net max_retries (attempt + 1)
      else (.apiErr, attempt + 1)
  | .connectionErr =>
      if h : attempt < max_retries then get_attempts_from net max_retries (attempt + 1)
      else (.apiErr, attempt + 1)
termination_by max_retries - attempt
decreasing_by all_goals omega

/-- Embeds `SaxoClient.get_with_headers` (the loop starts at attempt 0). -/
def get_with_headers (net : Nat → NetResult) (max_retries : Nat) :
    ClientResult × Nat :=
  get_attempts_from net max_retries 0

/-- Attempt outcomes after which the source loop is willing to issue another
request: the retryable status set, timeouts and connection errors. -/
def retriable : NetResult → Bool
  | .response s => s ∈ RETRYABLE_STATUS_CODES
  | .timeoutErr => true
  | .connectionErr => true

end Transport

namespace Executor

open Models Disclaimers Placement PositionGuards

/-- Embeds `execution.models.ExecutionStatus`. -/
inductive ExecutionStatus where
  | success
  | dry_run
  | failed_precheck
  | failed_placement
  | blocked_by_disclaimer
  | blocked_by_position
  | blocked_by_market_state
  | reconciliation_needed
  | rate_limited
deriving DecidableEq, Repr

/-- Embeds `execution.models.ExecutionResult`.  The `order_intent` and
`precheck_result` payload fields and the wall-clock `timestamp` are carried
through by the source without being branched on and are omitted here. -/
structure ExecutionResult where
  status : ExecutionStatus
  order_id : Option String := none
  error_message : Option String := none
  http_status : Option Int := none
  needs_reconciliation : Bool := false
deriving DecidableEq, Repr

/-- Python runtime errors the embedded orchestrator can raise. -/
inductive PyError where
  | attributeError (attr : String)
deriving DecidableEq, Repr

/-- Embeds the attribute lookup `precheck_result.success` performed by
`SaxoTradeExecutor.execute` (trade_executor.py line 186).  The value
returned by `PrecheckClient.execute_precheck` is a
`execution.precheck.PrecheckOutcome`, whose dataclass fields are `ok`,
`error_info`, `estimated_cost`, `margin_impact_buy_sell`,
`pre_trade_disclaimers`, `http_status`, `request_id` and `raw_response`:
there is no attribute named `success` (that name belongs to the separate
legacy dataclass `execution.models.PrecheckResult`), so the lookup raises
`AttributeError` for every such value. -/
def precheckSuccessAttr (_precheck_result : PrecheckOutcome) :
    Except PyError Bool :=
  .error (.attributeError "success")

/-- Embeds the attribute lookup `precheck_result.error_message`
(trade_executor.py line 187), which likewise names no attribute of
`PrecheckOutcome` and raises `AttributeError`. -/
def precheckErrorMessageAttr (_precheck_result : PrecheckOutcome) :
    Except PyError (Option String) :=
  .error (.attributeError "error_message")

/-- Embeds the Python substring test `"Market state" in error_msg`. -/
def mentionsMarketState (s : String) : Bool :=
  (s.splitOn "Market state").length ≠ 1

/-- Embeds `SaxoTradeExecutor.execute`.  Collaborator calls are oracles:
`validation` is the pair returned by
`InstrumentValidator.validate_order_intent`; `guard` the result of the
buy or sell guard evaluation; `precheck_result` the outcome returned by
`PrecheckClient.execute_precheck`; `fetch`/`accept` drive the disclaimer
service and `post`/`reconcile` the placement client as in their own
embeddings.  The defensive key overwrite and external-reference generation
at the top of the source mutate the intent without affecting any branch
below and are not modelled. -/
def execute
    (validation : Bool × Option String)
    (guard : PositionGuardResult)
    (precheck_result : PrecheckOutcome)
    (policy : DisclaimerPolicy)
    (fetch : String → Option DisclaimerDetails)
    (accept : String → Bool)
    (dry_run : Bool)
    (post : PostResult)
    (reconcile : Option String → Placement.ReconciliationOutcome)
    (external_reference request_id : String) :
    Except PyError ExecutionResult :=
  if !validation.1 then
    let error_msg := match validation.2 with
      | some s => s
      | none => "None"
    .ok { status :=
            if pyTruthyStr validation.2 ∧ mentionsMarketState error_msg then
              .blocked_by_market_state
            else .failed_precheck
          error_message := some ("Instrument validation failed: " ++ error_msg) }
  else if !guard.allowed then
    .ok { status := .blocked_by_position
          error_message := some ("Position guard blocked: " ++ guard.reason) }
  else
    match precheckSuccessAttr precheck_result with
    | .error e => .error e
    | .ok success =>
      if !success then
        match precheckErrorMessageAttr precheck_result with
        | .error e => .error e
        | .ok msg =>
            .ok { status := .failed_precheck
                  error_message :=
                    some ("Precheck failed: " ++ msg.getD "Unknown precheck error") }
      else
        let disclaimer_outcome :=
          (evaluate_disclaimers policy precheck_result.pre_trade_disclaimers
            fetch accept).1
        if !disclaimer_outcome.allow_trading then
          .ok { status := .blocked_by_disclaimer
                error_message := some "Disclaimers blocked trading" }
        else if dry_run then
          .ok { status := .dry_run
                order_id := some "DRY_RUN_ID"
                needs_reconciliation := false }
        else
          let outcome :=
            (place_order_sync ⟨dry_run⟩ external_reference precheck_result
              request_id post reconcile).1
          .ok { status :=
                  if outcome.final_status = "failure" then .failed_placement
                  else if outcome.final_status = "uncertain" then .reconciliation_needed
                  else .success
                order_id := outcome.order_id
                error_message := outcome.placement.error_info.map fun ei => ei.message
                needs_reconciliation := outcome.final_status = "uncertain" }

end Executor

section DisclaimerClaims

open Models Disclaimers

/-- Claim C1: for every set of disclaimer tokens whose fetched records contain
at least one blocking record, and for each of the three policies, the
resolution outcome has `allow_trading = false` and no acceptance POST call is
issued for any disclaimer in the set. -/
theorem blocking_disclaimer_always_blocks
    (policy : DisclaimerPolicy) (ds : PreTradeDisclaimers)
    (fetch : String → Option DisclaimerDetails) (accept : String → Bool)
    (hblock : ∃ d ∈ fetch_disclaimer_details_batch fetch ds.disclaimer_tokens,
      d.is_blocking = true) :
    (evaluate_disclaimers policy (some ds) fetch accept).1.allow_trading = false ∧
    (evaluate_disclaimers policy (some ds) fetch accept).2 = [] := by
  obtain ⟨d, hd, hb⟩ := hblock
  have htokens : ds.disclaimer_tokens ≠ [] := by
    intro h
    rw [h] at hd
    simp [fetch_disclaimer_details_batch] at hd
  have hfilter :
      (fetch_disclaimer_details_batch fetch ds.disclaimer_tokens).filter
        (fun d => d.is_blocking) ≠ [] := by
    intro h
    have : d ∈ (fetch_disclaimer_details_batch fetch ds.disclaimer_tokens).filter
        (fun d => d.is_blocking) := List.mem_filter.mpr ⟨hd, by simp [hb]⟩
    rw [h] at this
    simp at this
  simp only [evaluate_disclaimers, htokens, hfilter, if_false, if_true,
    ite_not, ne_eq, not_false_eq_true, ite_true, ite_false]
  exact ⟨trivial, trivial⟩

/-- Witness for C1: one blocking token under the auto-accept policy; the
outcome forbids trading and no acceptance call is issued. -/
theorem blocking_disclaimer_always_blocks_witness :
    (evaluate_disclaimers .auto_accept_normal
      (some ⟨"ctx", ["BLOCKING_TOKEN"]⟩)
      (fun t => some ⟨t, true, "Blocking Warning", "Risk", []⟩)
      (fun _ => true)).1.allow_trading = false ∧
    (evaluate_disclaimers .auto_accept_normal
      (some ⟨"ctx", ["BLOCKING_TOKEN"]⟩)
      (fun t => some ⟨t, true, "Blocking Warning", "Risk", []⟩)
      (fun _ => true)).2 = [] :=
  blocking_disclaimer_always_blocks .auto_accept_normal
    ⟨"ctx", ["BLOCKING_TOKEN"]⟩
    (fun t => some ⟨t, true, "Blocking Warning", "Risk", []⟩)
    (fun _ => true)
    ⟨⟨"BLOCKING_TOKEN", true, "Blocking Warning", "Risk", []⟩, by decide, rfl⟩

end DisclaimerClaims

section AutoAcceptClaims

open Models Disclaimers

/-- Claim C5 (code divergence, evaluated at the failing input): under the
`AUTO_ACCEPT_NORMAL` policy with no blocking disclaimers, the source
auto-accepts a normal disclaimer whose offerable response options do not
include any Accepted value (its options list is empty), issues the
acceptance POST for it, and allows trading.  The source performs no check
of response options, and `DisclaimerDetails` has no field for conditions
requiring user input at all, so the gating the claim describes does not
exist in the code. -/
theorem auto_accept_ignores_gating_checks :
    (evaluate_disclaimers .auto_accept_normal
      (some ⟨"ctx", ["NORMAL_TOKEN"]⟩)
      (fun t => some ⟨t, false, "Normal Warning", "Info", []⟩)
      (fun _ => true)).1.allow_trading = true ∧
    (evaluate_disclaimers .auto_accept_normal
      (some ⟨"ctx", ["NORMAL_TOKEN"]⟩)
      (fun t => some ⟨t, false, "Normal Warning", "Info", []⟩)
      (fun _ => true)).1.auto_accepted = ["NORMAL_TOKEN"] ∧
    (evaluate_disclaimers .auto_accept_normal
      (some ⟨"ctx", ["NORMAL_TOKEN"]⟩)
      (fun t => some ⟨t, false, "Normal Warning", "Info", []⟩)
      (fun _ => true)).2 = ["NORMAL_TOKEN"] := by
  refine ⟨rfl, rfl, rfl⟩

end AutoAcceptClaims

section PlacementClaims

open Models Placement

/-- Claim C2: the final execution status is derived by the table
FoundWorking, FoundFilled to success; FoundCancelled, NotFound to failure;
QueryFailed to uncertain when placement is Uncertain, and placement Success
and Failure map to success and failure regardless of any reconciliation
outcome. -/
theorem final_status_resolution_table (rec : Option ReconciliationStatus) :
    determine_final_status .success rec = "success" ∧
    determine_final_status .failure rec = "failure" ∧
    determine_final_status .uncertain (some .found_working) = "success" ∧
    determine_final_status .uncertain (some .found_filled) = "success" ∧
    determine_final_status .uncertain (some .found_cancelled) = "failure" ∧
    determine_final_status .uncertain (some .not_found) = "failure" ∧
    determine_final_status .uncertain (some .query_failed) = "uncertain" :=
  ⟨rfl, rfl, rfl, rfl, rfl, rfl, rfl⟩

/-- Claim C9: a 200 placement response with no embedded error block and no
order identifier, neither a truthy top-level OrderId nor a truthy OrderId
in any element of the Orders list, is classified Uncertain with
reconciliation required. -/
theorem missing_order_id_is_uncertain (data : PlacementResponse)
    (http_status : Int) (request_id : String)
    (herr : data.errorInfo = none)
    (hid : pyTruthyStr data.orderId = false)
    (horders : ∀ os, data.orders = some os → ∀ o ∈ os, pyTruthyStr o.orderId = false) :
    (parse_placement_response_data data http_status request_id).status = .uncertain ∧
    (parse_placement_response_data data http_status request_id).requires_reconciliation
      = true := by
  obtain ⟨ei, oid, ords⟩ := data
  simp only at herr hid horders
  subst herr
  rcases ords with _ | os
  · unfold parse_placement_response_data
    simp [hid]
  · rcases os with _ | ⟨o, rest⟩
    · unfold parse_placement_response_data
      simp [hid]
    · have ho := horders (o :: rest) rfl o (by simp)
      unfold parse_placement_response_data
      simp [hid, ho]

/-- Witness for C9: a response carrying only an Orders list whose single
element has no OrderId. -/
theorem missing_order_id_is_uncertain_witness :
    (parse_placement_response_data
      { errorInfo := none, orderId := none, orders := some [{ orderId := none }] }
      200 "req-1").status = .uncertain ∧
    (parse_placement_response_data
      { errorInfo := none, orderId := none, orders := some [{ orderId := none }] }
      200 "req-1").requires_reconciliation = true :=
  missing_order_id_is_uncertain
    { errorInfo := none, orderId := none, orders := some [{ orderId := none }] }
    200 "req-1" rfl rfl (by intro os hos o ho; simp at hos; subst hos; simp at ho; subst ho; rfl)

end PlacementClaims

section PlacementExceptionClaims

open Models Placement

/-- Counterexample to claim C3 as stated: when the placement network call
raises a connection error, the outcome is classified Failure with no
reconciliation, not Uncertain with reconciliation required.  Only
exceptions that are `requests.exceptions.Timeout` instances reach the
uncertain branch of `_place_order_sync`. -/
theorem connection_error_is_failure_cex :
    ((place_order_sync ⟨false⟩ "ref_1" { ok := true } "req-1"
        (.raiseConnectionError "Connection reset by peer")
        (fun _ => { status := .not_found })).1.placement.status = .failure) ∧
    ((place_order_sync ⟨false⟩ "ref_1" { ok := true } "req-1"
        (.raiseConnectionError "Connection reset by peer")
        (fun _ => { status := .not_found })).1.placement.requires_reconciliation
      = false) ∧
    ((place_order_sync ⟨false⟩ "ref_1" { ok := true } "req-1"
        (.raiseConnectionError "Connection reset by peer")
        (fun _ => { status := .not_found })).2 = [.postOrder]) :=
  ⟨rfl, rfl, rfl⟩

/-- Claim C3 as amended: a placement network exception that is a transport
timeout is classified with the TIMEOUT status (not Failure) and
reconciliation required, and the reconciliation query is issued; any other
exception, including a connection error or a definitive 4xx transport
error, is classified Failure with no reconciliation. -/
theorem placement_exception_classification
    (external_reference request_id message : String)
    (precheck_outcome : PrecheckOutcome)
    (reconcile : Option String → ReconciliationOutcome)
    (hok : precheck_outcome.ok = true) :
    ((place_order_sync ⟨false⟩ external_reference precheck_outcome request_id
        .raiseTimeout reconcile).1.placement.status = .timeout ∧
     (place_order_sync ⟨false⟩ external_reference precheck_outcome request_id
        .raiseTimeout reconcile).1.placement.status ≠ .failure ∧
     (place_order_sync ⟨false⟩ external_reference precheck_outcome request_id
        .raiseTimeout reconcile).1.placement.requires_reconciliation = true ∧
     (place_order_sync ⟨false⟩ external_reference precheck_outcome request_id
        .raiseTimeout reconcile).2 = [.postOrder, .getOrders]) ∧
    ((place_order_sync ⟨false⟩ external_reference precheck_outcome request_id
        (.raiseConnectionError message) reconcile).1.placement.status = .failure ∧
     (place_order_sync ⟨false⟩ external_reference precheck_outcome request_id
        (.raiseConnectionError message) reconcile).1.placement.requires_reconciliation
       = false ∧
     (place_order_sync ⟨false⟩ external_reference precheck_outcome request_id
        (.raiseConnectionError message) reconcile).2 = [.postOrder]) ∧
    (∀ status_code : Int,
      (place_order_sync ⟨false⟩ external_reference precheck_outcome request_id
        (.raiseApiError (some status_code) message) reconcile).1.placement.status
        = .failure) := by
  unfold place_order_sync
  simp [hok]

/-- Witness for C3 (amended): concrete timeout, connection-error and
4xx-error placements. -/
theorem placement_exception_classification_witness :
    ((place_order_sync ⟨false⟩ "ref_1" { ok := true } "req-1"
        .raiseTimeout (fun _ => { status := .not_found })).1.placement.status
      = .timeout) ∧
    ((place_order_sync ⟨false⟩ "ref_1" { ok := true } "req-1"
        .raiseTimeout (fun _ => { status := .not_found })).2
      = [.postOrder, .getOrders]) ∧
    ((place_order_sync ⟨false⟩ "ref_1" { ok := true } "req-1"
        (.raiseConnectionError "Connection refused")
        (fun _ => { status := .not_found })).1.placement.status = .failure) ∧
    ((place_order_sync ⟨false⟩ "ref_1" { ok := true } "req-1"
        (.raiseApiError (some 400) "Connection refused")
        (fun _ => { status := .not_found })).1.placement.status = .failure) := by
  have h := placement_exception_classification "ref_1" "req-1" "Connection refused"
    { ok := true } (fun _ => { status := .not_found }) rfl
  exact ⟨h.1.1, h.1.2.2.2, h.2.1.1, h.2.2 400⟩

/-- Counterexample to claim C4 as stated: in dry-run mode the placement
client returns final status success but its result carries no order id at
all, rather than a sentinel order id; and the orchestrator never reaches
its own dry-run sentinel branch, because `execute` raises `AttributeError`
on `precheck_result.success` first. -/
theorem dry_run_no_sentinel_cex :
    ((place_order_sync ⟨true⟩ "ref_1" { ok := true } "req-1"
        (.ok { orderId := some "12345" })
        (fun _ => { status := .not_found })).1.order_id = none) ∧
    ((place_order_sync ⟨true⟩ "ref_1" { ok := true } "req-1"
        (.ok { orderId := some "12345" })
        (fun _ => { status := .not_found })).1.final_status = "success") ∧
    ((place_order_sync ⟨true⟩ "ref_1" { ok := true } "req-1"
        (.ok { orderId := some "12345" })
        (fun _ => { status := .not_found })).2 = []) ∧
    (Executor.execute (true, none) { allowed := true, reason := "no_existing_position" }
        { ok := true } .block_all (fun _ => none) (fun _ => true) true
        (.ok { orderId := some "12345" }) (fun _ => { status := .not_found })
        "ref_1" "req-1"
      = .error (.attributeError "success")) :=
  ⟨rfl, rfl, rfl, rfl⟩

/-- Claim C4 as amended: for every order intention executed with dry-run
mode set, the placement client issues no placement and no reconciliation
network call, and returns final status success with no order id. -/
theorem dry_run_places_no_orders
    (external_reference request_id : String) (precheck_outcome : PrecheckOutcome)
    (post : PostResult) (reconcile : Option String → ReconciliationOutcome) :
    (place_order_sync ⟨true⟩ external_reference precheck_outcome request_id
        post reconcile).2 = [] ∧
    (place_order_sync ⟨true⟩ external_reference precheck_outcome request_id
        post reconcile).1.final_status = "success" ∧
    (place_order_sync ⟨true⟩ external_reference precheck_outcome request_id
        post reconcile).1.placement.status = .success ∧
    (place_order_sync ⟨true⟩ external_reference precheck_outcome request_id
        post reconcile).1.order_id = none :=
  ⟨rfl, rfl, rfl, rfl⟩

end PlacementExceptionClaims

section ValidationClaims

open Validation

/-- Counterexample to claim C6 as stated: the alignment check is an
epsilon-tolerance comparison, not an exact-remainder test, so the amount
1e-11 with increment 1 passes the check although its exact remainder is
nonzero.  All float operations of the source are exact at this input up to
the strict comparison against the 1e-10 tolerance, so the rational model
reproduces the source behaviour. -/
theorem increment_check_tolerance_cex :
    increment_check (1 / 10 ^ 11) 1 = true ∧ pymod (1 / 10 ^ 11) 1 ≠ 0 := by
  constructor
  · norm_num [increment_check, pymod, eps]
  · norm_num [pymod]

/-- Bounds on the exact remainder: for a positive divisor, `pymod` lies in
the half-open interval from 0 to the divisor. -/
theorem pymod_bounds (a b : ℚ) (hb : 0 < b) : 0 ≤ pymod a b ∧ pymod a b < b := by
  have heq : pymod a b = b * Int.fract (a / b) := by
    unfold pymod Int.fract
    field_simp
  constructor
  · rw [heq]
    exact mul_nonneg hb.le (Int.fract_nonneg _)
  · rw [heq]
    calc b * Int.fract (a / b) < b * 1 :=
          mul_lt_mul_of_pos_left (Int.fract_lt_one _) hb
      _ = b := mul_one b

/-- Claim C6 as amended: for every quantity and every increment i greater
than zero, the exact remainder lies in the interval from 0 (inclusive) to i
(exclusive), and the alignment check passes exactly when that remainder is
within the 1e-10 tolerance of 0 or of i.  Consequently exact multiples
always pass, remainders strictly between the tolerances always fail (5000
against 1000 is valid, 5500 against 1000 is invalid), and nonzero
remainders inside the tolerance are accepted although they are not exact
multiples (see the counterexample). -/
theorem increment_check_tolerance_band (amount increment : ℚ)
    (hinc : 0 < increment) :
    (0 ≤ pymod amount increment ∧ pymod amount increment < increment) ∧
    (increment_check amount increment = true ↔
      pymod amount increment ≤ eps ∨ increment - pymod amount increment ≤ eps) ∧
    (pymod amount increment = 0 → increment_check amount increment = true) ∧
    (eps < pymod amount increment → pymod amount increment < increment - eps →
      increment_check amount increment = false) := by
  obtain ⟨h0, hlt⟩ := pymod_bounds amount increment hinc
  have habs : |pymod amount increment - increment|
      = increment - pymod amount increment := by
    rw [abs_sub_comm, abs_of_pos (by linarith)]
  have hspec : increment_check amount increment = true ↔
      ¬(pymod amount increment > eps ∧
        |pymod amount increment - increment| > eps) := by
    simp only [increment_check]
    split_ifs with h
    · simp [h]
    · simp [h]
  refine ⟨⟨h0, hlt⟩, ?_, ?_, ?_⟩
  · rw [hspec, habs, not_and_or, not_lt, not_lt]
  · intro h
    unfold increment_check
    rw [h]
    norm_num [eps]
  · intro h1 h2
    unfold increment_check
    rw [if_pos]
    refine ⟨h1, ?_⟩
    rw [habs]
    linarith

/-- Witness for C6 (amended): the two boundary examples of the claim. -/
theorem increment_check_tolerance_band_witness :
    increment_check 5000 1000 = true ∧ increment_check 5500 1000 = false := by
  constructor
  · exact (increment_check_tolerance_band 5000 1000 (by norm_num)).2.2.1
      (by norm_num [pymod])
  · exact (increment_check_tolerance_band 5500 1000 (by norm_num)).2.2.2
      (by norm_num [pymod, eps]) (by norm_num [pymod, eps])

end ValidationClaims

section PositionClaims

open PositionGuards

/-- Claim C8: for every short position (negative net quantity, in
particular net quantity -50), the sell guard blocks with reason
position_is_short, and the buy guard allows exactly when short covering is
enabled in configuration, blocking with reason
short_covering_not_configured otherwise. -/
theorem short_position_guard_rules
    (config : ExecutionConfig) (positions : String × Int → Option Position)
    (last_query_failed : Bool) (asset_type : String) (uic : Int)
    (buy_quantity : ℚ) (sell_quantity : Option ℚ) (p : Position)
    (hpos : positions (asset_type, uic) = some p)
    (hshort : p.net_quantity < 0) :
    (evaluate_sell_intent positions asset_type uic sell_quantity).allowed = false ∧
    (evaluate_sell_intent positions asset_type uic sell_quantity).reason
      = "position_is_short" ∧
    (evaluate_buy_intent config positions last_query_failed asset_type uic
        buy_quantity).allowed = config.allow_short_covering ∧
    (config.allow_short_covering = false →
      (evaluate_buy_intent config positions last_query_failed asset_type uic
        buy_quantity).reason = "short_covering_not_configured") := by
  have hnotpos : ¬(p.net_quantity > 0) := not_lt.mpr (le_of_lt hshort)
  unfold evaluate_sell_intent evaluate_buy_intent
  rw [hpos]
  simp only [hshort, hnotpos, if_true, if_false, ite_false, ite_true]
  refine ⟨by simp [hshort], by simp [hshort], ?_, ?_⟩
  · rcases hc : config.allow_short_covering with _ | _ <;> simp [hc, hshort, hnotpos]
  · intro hc
    simp [hc, hshort, hnotpos]

/-- Witness for C8: a short position of net quantity -50 under the default
configuration (short covering disabled) and under a configuration with
short covering enabled. -/
theorem short_position_guard_rules_witness :
    (evaluate_sell_intent
        (fun k => if k = ("Stock", 211) then
          some { asset_type := "Stock", uic := 211, account_key := "acc_1",
                 position_id := "pos_1", net_quantity := -50,
                 average_price := 100, market_value := -5000,
                 unrealized_pnl := 0, currency := "USD" }
          else none)
        "Stock" 211 (some 50)).allowed = false ∧
    (evaluate_sell_intent
        (fun k => if k = ("Stock", 211) then
          some { asset_type := "Stock", uic := 211, account_key := "acc_1",
                 position_id := "pos_1", net_quantity := -50,
                 average_price := 100, market_value := -5000,
                 unrealized_pnl := 0, currency := "USD" }
          else none)
        "Stock" 211 (some 50)).reason = "position_is_short" ∧
    (evaluate_buy_intent {} -- default configuration: short covering disabled
        (fun k => if k = ("Stock", 211) then
          some { asset_type := "Stock", uic := 211, account_key := "acc_1",
                 position_id := "pos_1", net_quantity := -50,
                 average_price := 100, market_value := -5000,
                 unrealized_pnl := 0, currency := "USD" }
          else none)
        false "Stock" 211 50).allowed = false ∧
    (evaluate_buy_intent { allow_short_covering := true }
        (fun k => if k = ("Stock", 211) then
          some { asset_type := "Stock", uic := 211, account_key := "acc_1",
                 position_id := "pos_1", net_quantity := -50,
                 average_price := 100, market_value := -5000,
                 unrealized_pnl := 0, currency := "USD" }
          else none)
        false "Stock" 211 50).allowed = true := by
  have h1 := short_position_guard_rules {}
    (fun k => if k = ("Stock", 211) then
      some { asset_type := "Stock", uic := 211, account_key := "acc_1",
             position_id := "pos_1", net_quantity := -50,
             average_price := 100, market_value := -5000,
             unrealized_pnl := 0, currency := "USD" }
      else none)
    false "Stock" 211 50 (some 50)
    { asset_type := "Stock", uic := 211, account_key := "acc_1",
      position_id := "pos_1", net_quantity := -50,
      average_price := 100, market_value := -5000,
      unrealized_pnl := 0, currency := "USD" }
    (by simp) (by norm_num)
  have h2 := short_position_guard_rules { allow_short_covering := true }
    (fun k => if k = ("Stock", 211) then
      some { asset_type := "Stock", uic := 211, account_key := "acc_1",
             position_id := "pos_1", net_quantity := -50,
             average_price := 100, market_value := -5000,
             unrealized_pnl := 0, currency := "USD" }
      else none)
    false "Stock" 211 50 (some 50)
    { asset_type := "Stock", uic := 211, account_key := "acc_1",
      position_id := "pos_1", net_quantity := -50,
      average_price := 100, market_value := -5000,
      unrealized_pnl := 0, currency := "USD" }
    (by simp) (by norm_num)
  exact ⟨h1.1, h1.2.1, h1.2.2.1, h2.2.2.1⟩

end PositionClaims

section TransportClaims

open Transport

/-- Characterisation of the transport retry loop from any starting attempt:
the request count never exceeds the budget, every attempt strictly before
the last one ended in a retriable outcome, and the count always exceeds the
starting index. -/
theorem get_attempts_from_spec (net : Nat → NetResult) (max_retries : Nat) :
    ∀ attempt,
      (attempt ≤ max_retries →
        (get_attempts_from net max_retries attempt).2 ≤ max_retries + 1) ∧
      attempt < (get_attempts_from net max_retries attempt).2 ∧
      (∀ i, attempt ≤ i → i + 1 < (get_attempts_from net max_retries attempt).2 →
        retriable (net i) = true) := by
  intro attempt
  induction attempt using get_attempts_from.induct net max_retries with
  | case1 x s hnet hs =>
    unfold get_attempts_from
    simp only [hnet, hs, if_true, ite_true]
    exact ⟨fun h => by omega, by omega, fun i hxi hi => by omega⟩
  | case2 x hx hnet hs ih =>
    have h400 : ¬ ((429 : Nat) < 400) := by decide
    unfold get_attempts_from
    simp only [hnet, h400, hx, eq_self_iff_true, if_true, if_false, ite_true, ite_false,
      dite_eq_ite, not_false_eq_true]
    refine ⟨fun h => ih.1 (by omega), by have := ih.2.1; omega, fun i hxi hi => ?_⟩
    rcases Nat.eq_or_lt_of_le hxi with rfl | hlt
    · rw [hnet]; decide
    · exact ih.2.2 i hlt hi
  | case3 x hx hnet hs =>
    have h400 : ¬ ((429 : Nat) < 400) := by decide
    unfold get_attempts_from
    simp only [hnet, h400, hx, eq_self_iff_true, if_true, if_false, ite_true, ite_false,
      dite_eq_ite, not_false_eq_true]
    exact ⟨fun h => by omega, by omega, fun i hxi hi => by omega⟩
  | case4 x s hnet h400 h429 hmem =>
    unfold get_attempts_from
    simp only [hnet, h400, h429, hmem, if_true, if_false, ite_true, ite_false,
      dite_eq_ite, not_false_eq_true]
    exact ⟨fun h => by omega, by omega, fun i hxi hi => by omega⟩
  | case5 x s hnet h400 h429 hnmem hmem hx ih =>
    unfold get_attempts_from
    simp only [hnet, h400, h429, hnmem, hmem, hx, if_true, if_false, ite_true, ite_false,
      dite_eq_ite, not_false_eq_true]
    refine ⟨fun h => ih.1 (by omega), by have := ih.2.1; omega, fun i hxi hi => ?_⟩
    rcases Nat.eq_or_lt_of_le hxi with rfl | hlt
    · rw [hnet]
      simp only [retriable]
      exact decide_eq_true hmem
    · exact ih.2.2 i hlt hi
  | case6 x s hnet h400 h429 hnmem hmem hx =>
    unfold get_attempts_from
    simp only [hnet, h400, h429, hnmem, hmem, hx, if_true, if_false, ite_true, ite_false,
      dite_eq_ite, not_false_eq_true]
    exact ⟨fun h => by omega, by omega, fun i hxi hi => by omega⟩
  | case7 x s hnet h400 h429 hnmem hnmem2 =>
    unfold get_attempts_from
    simp only [hnet, h400, h429, hnmem, hnmem2, if_true, if_false, ite_true, ite_false,
      dite_eq_ite, not_false_eq_true]
    exact ⟨fun h => by omega, by omega, fun i hxi hi => by omega⟩
  | case8 x hnet hx ih =>
    unfold get_attempts_from
    simp only [hnet, hx, if_true, ite_true, dite_eq_ite]
    refine ⟨fun h => ih.1 (by omega), by have := ih.2.1; omega, fun i hxi hi => ?_⟩
    rcases Nat.eq_or_lt_of_le hxi with rfl | hlt
    · rw [hnet]; decide
    · exact ih.2.2 i hlt hi
  | case9 x hnet hx =>
    unfold get_attempts_from
    simp only [hnet, hx, if_true, if_false, ite_true, ite_false, dite_eq_ite,
      not_false_eq_true]
    exact ⟨fun h => by omega, by omega, fun i hxi hi => by omega⟩
  | case10 x hnet hx ih =>
    unfold get_attempts_from
    simp only [hnet, hx, if_true, ite_true, dite_eq_ite]
    refine ⟨fun h => ih.1 (by omega), by have := ih.2.1; omega, fun i hxi hi => ?_⟩
    rcases Nat.eq_or_lt_of_le hxi with rfl | hlt
    · rw [hnet]; decide
    · exact ih.2.2 i hlt hi
  | case11 x hnet hx =>
    unfold get_attempts_from
    simp only [hnet, hx, if_true, if_false, ite_true, ite_false, dite_eq_ite,
      not_false_eq_true]
    exact ⟨fun h => by omega, by omega, fun i hxi hi => by omega⟩

/-- Claim C7: the transport GET loop issues at most budget-plus-one
requests; a retry happens only after an attempt whose outcome is retriable
(a 429 or 5xx response from the retryable set, a timeout or a connection
error), so a 400, 401 or 403 response is never retried; a first response
with one of those statuses terminates the loop immediately after one
request through the error handler; and the error handler raises the
authentication error exactly for 401 and 403, while 400 raises the plain
API error. -/
theorem transport_retry_policy (net : Nat → NetResult) (max_retries : Nat) :
    (get_with_headers net max_retries).2 ≤ max_retries + 1 ∧
    (∀ i, i + 1 < (get_with_headers net max_retries).2 → retriable (net i) = true) ∧
    (∀ s, net 0 = .response s → s ∈ NON_RETRYABLE_STATUS_CODES →
      get_with_headers net max_retries = (handle_http_error_response s, 1)) ∧
    (∀ s, s = 401 ∨ s = 403 → handle_http_error_response s = .authErr) ∧
    handle_http_error_response 400 = .apiErr := by
  refine ⟨(get_attempts_from_spec net max_retries 0).1 (Nat.zero_le _),
    fun i hi => (get_attempts_from_spec net max_retries 0).2.2 i (Nat.zero_le _) hi,
    fun s hnet hmem => ?_, fun s hs => ?_, by decide⟩
  · have hs : s = 400 ∨ s = 401 ∨ s = 403 := by
      simpa [NON_RETRYABLE_STATUS_CODES] using hmem
    have h400 : ¬ s < 400 := by rcases hs with rfl | rfl | rfl <;> decide
    have h429 : ¬ s = 429 := by rcases hs with rfl | rfl | rfl <;> decide
    unfold get_with_headers get_attempts_from
    simp only [hnet, h400, h429, hmem, if_true, if_false, ite_true, ite_false,
      not_false_eq_true]
  · unfold handle_http_error_response
    rw [if_pos hs]

/-- Witness for C7: a 401 response on the first attempt terminates after
exactly one request with the authentication error. -/
theorem transport_retry_policy_witness :
    get_with_headers (fun _ => .response 401) 3 = (.authErr, 1) := by
  have h := transport_retry_policy (fun _ => .response 401) 3
  have h3 := h.2.2.1 401 rfl (by decide)
  rw [h3, h.2.2.2.1 401 (Or.inl rfl)]

end TransportClaims

section ExecutorClaims

open Models Disclaimers Placement PositionGuards Executor

/-- Claim C10 (code divergence, evaluated on the failing path): whenever
instrument validation and the position guard both pass,
`SaxoTradeExecutor.execute` does not return an `ExecutionResult` at all: it
raises `AttributeError` at the `precheck_result.success` lookup, because
the precheck client returns a `PrecheckOutcome`, whose only success flag is
named `ok`.  This holds for dry-run and non-dry-run invocations alike. -/
theorem execute_raises_attribute_error
    (validation : Bool × Option String) (guard : PositionGuardResult)
    (precheck_result : PrecheckOutcome) (policy : DisclaimerPolicy)
    (fetch : String → Option DisclaimerDetails) (accept : String → Bool)
    (dry_run : Bool) (post : PostResult)
    (reconcile : Option String → ReconciliationOutcome)
    (external_reference request_id : String)
    (hval : validation.1 = true) (hguard : guard.allowed = true) :
    Executor.execute validation guard precheck_result policy fetch accept dry_run
      post reconcile external_reference request_id
      = .error (.attributeError "success") := by
  unfold Executor.execute
  simp [hval, hguard, Executor.precheckSuccessAttr]

/-- Witness for C10: a concrete intent that passes validation and the
position guard, with a successful precheck outcome, in non-dry-run mode. -/
theorem execute_raises_attribute_error_witness :
    Executor.execute (true, none)
      { allowed := true, reason := "no_existing_position" }
      { ok := true } .block_all (fun _ => none) (fun _ => true) false
      (.ok { orderId := some "12345" }) (fun _ => { status := .not_found })
      "ref_1" "req-1"
      = .error (.attributeError "success") :=
  execute_raises_attribute_error (true, none)
    { allowed := true, reason := "no_existing_position" }
    { ok := true } .block_all (fun _ => none) (fun _ => true) false
    (.ok { orderId := some "12345" }) (fun _ => { status := .not_found })
    "ref_1" "req-1" rfl rfl

end ExecutorClaims
